import Mathlib

/-!
Shallow embedding of the virtio-input device of `src/devices/src/virtio/input`
(`protocol.rs` and `device.rs`), with theorems settling the specification
claims about it. Machine integers are modelled as `Nat` (bytes are `Nat`
values below 256, `u64` quantities are `Nat` with explicit bounds where
overflow matters); byte buffers are `List Nat`; the tagged payload union
`VirtioInputConfigUnion` is modelled as its raw 128-byte buffer.
-/

set_option maxRecDepth 100000

namespace VirtioInput

/-! ### Constants from protocol.rs -/

def VIRTIO_INPUT_CFG_UNSET : Nat := 0x00
def VIRTIO_INPUT_CFG_ID_NAME : Nat := 0x01
def VIRTIO_INPUT_CFG_ID_SERIAL : Nat := 0x02
def VIRTIO_INPUT_CFG_ID_DEVIDS : Nat := 0x03
def VIRTIO_INPUT_CFG_PROP_BITS : Nat := 0x10
def VIRTIO_INPUT_CFG_EV_BITS : Nat := 0x11
def VIRTIO_INPUT_CFG_ABS_INFO : Nat := 0x12

def EV_SYN : Nat := 0x00
def EV_KEY : Nat := 0x01
def EV_REL : Nat := 0x02
def EV_ABS : Nat := 0x03
def EV_REP : Nat := 0x14

def REL_X : Nat := 0x00
def REL_Y : Nat := 0x01
def REL_WHEEL : Nat := 0x08

def BTN_LEFT : Nat := 0x110
def BTN_RIGHT : Nat := 0x111
def BTN_MIDDLE : Nat := 0x112

def SYN_REPORT : Nat := 0

def BUS_PCI : Nat := 0x01
def BUS_VIRTUAL : Nat := 0x06

/-- `VIRTIO_F_VERSION_1` from `defs::uapi` (declared outside these sources;
its value 32 is fixed by the virtio specification). -/
def VIRTIO_F_VERSION_1 : Nat := 32

/-! ### protocol.rs data types -/

/-- `VirtioInputDevIds`: four little-endian `u16` fields. -/
structure VirtioInputDevIds where
  bustype : Nat
  vendor : Nat
  product : Nat
  version : Nat
deriving DecidableEq, Repr

/-- `VirtioInputEvent`: `event_type : u16`, `code : u16`, `value : u32`. -/
structure VirtioInputEvent where
  event_type : Nat
  code : Nat
  value : Nat
deriving DecidableEq, Repr

/-- `VirtioInputConfig`: select/subsel/size bytes, 5 reserved bytes, and the
128-byte payload union (modelled as its raw bytes). -/
structure VirtioInputConfig where
  select : Nat
  subsel : Nat
  size : Nat
  reserved : List Nat
  payload : List Nat
deriving DecidableEq, Repr

/-- `Default for VirtioInputConfig`: all fields zeroed. -/
def VirtioInputConfig.default : VirtioInputConfig :=
  { select := 0, subsel := 0, size := 0,
    reserved := List.replicate 5 0, payload := List.replicate 128 0 }

/-- Well-formedness of the modelled record: the fixed field widths of the
`repr(C)` struct (5 reserved bytes, 128 payload bytes). -/
def VirtioInputConfig.wf (c : VirtioInputConfig) : Prop :=
  c.reserved.length = 5 ∧ c.payload.length = 128

/-- `set_bit` from protocol.rs: set bit `bit` of the byte bitmap. -/
def set_bit (bitmap : List Nat) (bit : Nat) : List Nat :=
  let byteIdx := bit / 8
  let bitIdx := bit % 8
  if byteIdx < bitmap.length then
    bitmap.set byteIdx ((bitmap.getD byteIdx 0) ||| (1 <<< bitIdx))
  else
    bitmap

/-! ### Serialization (the `ByteValued` raw-byte views, little-endian) -/

def le16 (x : Nat) : List Nat := [x % 256, x / 256 % 256]

def le32 (x : Nat) : List Nat :=
  [x % 256, x / 256 % 256, x / 65536 % 256, x / 16777216 % 256]

/-- The 8 raw bytes of a `VirtioInputDevIds` (`repr(C)`, four `u16`). -/
def VirtioInputDevIds.bytes (d : VirtioInputDevIds) : List Nat :=
  le16 d.bustype ++ le16 d.vendor ++ le16 d.product ++ le16 d.version

/-- The 8 raw bytes of a `VirtioInputEvent` (`repr(C)`: u16, u16, u32). -/
def encodeEvent (e : VirtioInputEvent) : List Nat :=
  le16 e.event_type ++ le16 e.code ++ le32 e.value

/-- Reading a `VirtioInputEvent` back from its 8 raw bytes. -/
def decodeEvent (bs : List Nat) : Option VirtioInputEvent :=
  match bs with
  | [b0, b1, b2, b3, b4, b5, b6, b7] =>
      some { event_type := b0 + 256 * b1, code := b2 + 256 * b3,
             value := b4 + 256 * b5 + 65536 * b6 + 16777216 * b7 }
  | _ => none

/-- The 136 raw bytes of a `VirtioInputConfig` (`repr(C)`: three `u8`,
five reserved bytes, the 128-byte union). -/
def serializeConfig (c : VirtioInputConfig) : List Nat :=
  c.select :: c.subsel :: c.size :: (c.reserved ++ c.payload)

/-! ### device.rs: the Input device state -/

inductive InputDeviceType where
  | keyboard
  | mouse
deriving DecidableEq, Repr

/-- The pure state of `Input` relevant to config-space and event-buffer
behaviour (queues, eventfds and the activation handle are external
resources out of this model's scope). -/
structure Input where
  device_type : InputDeviceType
  name : List Nat
  serial : List Nat
  avail_features : Nat
  acked_features : Nat
  config : VirtioInputConfig
  event_buffer : List VirtioInputEvent
deriving Repr

/-- UTF-8 bytes of an ASCII string literal. -/
def strBytes (s : String) : List Nat := s.data.map Char.toNat

/-- `Input::new` (the state part; eventfd/queue allocation is external). -/
def Input.new (device_type : InputDeviceType) (name serial : String) : Input :=
  { device_type := device_type
    name := strBytes name
    serial := strBytes serial
    avail_features := 1 <<< VIRTIO_F_VERSION_1
    acked_features := 0
    config := VirtioInputConfig.default
    event_buffer := [] }

def Input.new_keyboard : Input := Input.new .keyboard "virtio-keyboard" "keyboard-1"

def Input.new_mouse : Input := Input.new .mouse "virtio-mouse" "mouse-1"

/-- Product code chosen in the `ID_DEVIDS` arm of `Input::get_config`. -/
def productCode : InputDeviceType → Nat
  | .keyboard => 1
  | .mouse => 2

/-- The inner `match self.device_type` of the `EV_BITS` arm of
`Input::get_config` (the per-class subsel dispatch). -/
def ev_bits_inner (dt : InputDeviceType) (subsel : Nat) (base : VirtioInputConfig) :
    VirtioInputConfig :=
  match dt with
  | .keyboard =>
      if subsel = EV_KEY then
        { base with size := 128, payload := List.replicate 128 0xff }
      else if subsel = EV_REP then
        { base with size := 1, payload := (List.replicate 128 0).set 0 0x03 }
      else base
  | .mouse =>
      if subsel = EV_KEY then
        { base with
          size := 24
          payload := set_bit (set_bit (set_bit (List.replicate 128 0) BTN_LEFT) BTN_RIGHT) BTN_MIDDLE }
      else if subsel = EV_REL then
        { base with
          size := 2
          payload := set_bit (set_bit (set_bit (List.replicate 128 0) REL_X) REL_Y) REL_WHEEL }
      else base

/-- The local 128-byte event-types bitmap built in the `config.size > 0`
block of the `EV_BITS` arm. -/
def ev_types_bitmap (dt : InputDeviceType) : List Nat :=
  let bm := set_bit (List.replicate 128 0) EV_SYN
  match dt with
  | .keyboard => set_bit (set_bit bm EV_KEY) EV_REP
  | .mouse => set_bit (set_bit bm EV_KEY) EV_REL

/-- The freshly defaulted record with `select`/`subsel` stored, built at the
top of `Input::get_config`. -/
def baseConfig (select subsel : Nat) : VirtioInputConfig :=
  { VirtioInputConfig.default with select := select, subsel := subsel }

/-- `Input::get_config(select, subsel)`, mirroring the source dispatch. -/
def Input.get_config (s : Input) (select subsel : Nat) : VirtioInputConfig :=
  if select = VIRTIO_INPUT_CFG_ID_NAME then
    { baseConfig select subsel with
      size := min s.name.length 128
      payload := s.name.take (min s.name.length 128) ++
        List.replicate (128 - min s.name.length 128) 0 }
  else if select = VIRTIO_INPUT_CFG_ID_SERIAL then
    { baseConfig select subsel with
      size := min s.serial.length 128
      payload := s.serial.take (min s.serial.length 128) ++
        List.replicate (128 - min s.serial.length 128) 0 }
  else if select = VIRTIO_INPUT_CFG_ID_DEVIDS then
    { baseConfig select subsel with
      size := 8
      payload := VirtioInputDevIds.bytes
          { bustype := BUS_VIRTUAL, vendor := 0x1af4,
            product := productCode s.device_type, version := 1 }
        ++ List.replicate 120 0 }
  else if select = VIRTIO_INPUT_CFG_EV_BITS then
    if 0 < (ev_bits_inner s.device_type subsel (baseConfig select subsel)).size then
      if subsel = 0 then
        { ev_bits_inner s.device_type subsel (baseConfig select subsel) with
          size := 1
          payload := (ev_types_bitmap s.device_type).take 1 ++
            (ev_bits_inner s.device_type subsel (baseConfig select subsel)).payload.drop 1 }
      else ev_bits_inner s.device_type subsel (baseConfig select subsel)
    else ev_bits_inner s.device_type subsel (baseConfig select subsel)
  else
    { baseConfig select subsel with size := 0 }

/-- `Input::send_event`: append to the shared event buffer. -/
def Input.send_event (s : Input) (event : VirtioInputEvent) : Input :=
  { s with event_buffer := s.event_buffer ++ [event] }

/-- `VirtioDevice::set_acked_features` for `Input`: plain assignment. -/
def Input.set_acked_features (s : Input) (acked_features : Nat) : Input :=
  { s with acked_features := acked_features }

/-- `Write::write_all` for a `&mut [u8]` destination: copies `src` to the
front of `data` when it fits, errs (`none`, the panicking `unwrap`)
otherwise. -/
def writeAll (data src : List Nat) : Option (List Nat) :=
  if src.length ≤ data.length then some (src ++ data.drop src.length) else none

/-- `VirtioDevice::read_config` for `Input`. `none` models a panic of the
`unwrap` on `write_all`; `some` returns the output buffer's final bytes.
The second guard is `offset.checked_add(data.len())` on `u64`. -/
def Input.read_config (s : Input) (offset : Nat) (data : List Nat) : Option (List Nat) :=
  if (serializeConfig s.config).length ≤ offset then
    some data
  else if offset + data.length < 2 ^ 64 then
    writeAll data (((serializeConfig s.config).take
      (min (offset + data.length) (serializeConfig s.config).length)).drop offset)
  else
    some data

/-- `VirtioDevice::write_config` for `Input`:
`size_of::<VirtioInputConfig>() = 136`. -/
def Input.write_config (s : Input) (offset : Nat) (data : List Nat) : Input :=
  if 136 ≤ offset then s
  else if offset = 0 ∧ 2 ≤ data.length then
    { s with config := s.get_config (data.getD 0 0) (data.getD 1 0) }
  else s

/-- The `(select, subsel)` pairs listed as defined entries of the config
dispatch table (spec §4.1): the three identity selectors (any subsel) and
the `EV_BITS` rows for subsel 0, `KEY`, and the class-specific `REP`/`REL`. -/
def definedEntry (dt : InputDeviceType) (select subsel : Nat) : Prop :=
  select = VIRTIO_INPUT_CFG_ID_NAME ∨
  select = VIRTIO_INPUT_CFG_ID_SERIAL ∨
  select = VIRTIO_INPUT_CFG_ID_DEVIDS ∨
  (select = VIRTIO_INPUT_CFG_EV_BITS ∧
    (subsel = 0 ∨ subsel = EV_KEY ∨
      (dt = .keyboard ∧ subsel = EV_REP) ∨ (dt = .mouse ∧ subsel = EV_REL)))

instance (dt : InputDeviceType) (select subsel : Nat) :
    Decidable (definedEntry dt select subsel) := by
  unfold definedEntry
  infer_instance

/-! ### Helper lemmas -/

theorem send_event_foldl_buffer (s : Input) (events : List VirtioInputEvent) :
    (events.foldl Input.send_event s).event_buffer = s.event_buffer ++ events := by
  induction events generalizing s with
  | nil => simp
  | cons e es ih =>
      simp only [List.foldl_cons, ih, Input.send_event, List.append_assoc,
        List.singleton_append]

theorem serializeConfig_length (c : VirtioInputConfig) (h : c.wf) :
    (serializeConfig c).length = 136 := by
  obtain ⟨h1, h2⟩ := h
  simp [serializeConfig, h1, h2]

theorem ev_bits_inner_eq_base (dt : InputDeviceType) (subsel : Nat)
    (base : VirtioInputConfig)
    (hk : subsel ≠ EV_KEY)
    (hrep : dt = .keyboard → subsel ≠ EV_REP)
    (hrel : dt = .mouse → subsel ≠ EV_REL) :
    ev_bits_inner dt subsel base = base := by
  cases dt with
  | keyboard =>
      simp only [ev_bits_inner]
      rw [if_neg hk, if_neg (hrep rfl)]
  | mouse =>
      simp only [ev_bits_inner]
      rw [if_neg hk, if_neg (hrel rfl)]

/-! ### Claims -/

/-- C1: contrary to the claim, building the config record for `EV_BITS` with
`subsel = 0` yields `size = 0` and an all-zero payload for both device
classes: the `subsel == 0` branch that would copy the SYN/KEY/REP/REL bitmap
is guarded by `config.size > 0`, which never holds when `subsel = 0`. -/
theorem ev_bits_subsel0_returns_empty :
    ((Input.new_keyboard).get_config VIRTIO_INPUT_CFG_EV_BITS 0).size = 0 ∧
    ((Input.new_keyboard).get_config VIRTIO_INPUT_CFG_EV_BITS 0).payload =
      List.replicate 128 0 ∧
    ((Input.new_mouse).get_config VIRTIO_INPUT_CFG_EV_BITS 0).size = 0 ∧
    ((Input.new_mouse).get_config VIRTIO_INPUT_CFG_EV_BITS 0).payload =
      List.replicate 128 0 := by
  decide

/-- C2 counterexample: after `set_acked_features(avail_features | 1)` on a
fresh keyboard device, `acked_features` is not a subset of
`avail_features` — the extra low bit is stored, not clamped. -/
theorem set_acked_features_not_clamped :
    ¬ (((Input.new_keyboard).set_acked_features
          ((Input.new_keyboard).avail_features ||| 1)).acked_features &&&
        ((Input.new_keyboard).set_acked_features
          ((Input.new_keyboard).avail_features ||| 1)).avail_features =
        ((Input.new_keyboard).set_acked_features
          ((Input.new_keyboard).avail_features ||| 1)).acked_features) := by
  decide

/-- C2 (amended): `set_acked_features` stores the passed feature mask
verbatim into `acked_features` and leaves `avail_features` unchanged; no
clamping to `avail_features` takes place. -/
theorem set_acked_features_stores_verbatim (s : Input) (features : Nat) :
    (s.set_acked_features features).acked_features = features ∧
    (s.set_acked_features features).avail_features = s.avail_features := by
  exact ⟨rfl, rfl⟩

/-- C3 counterexample: no fixed bound caps the event buffer — for every
candidate bound there is a sequence of `send_event` calls driving the
buffer's length past it, so the claimed drop-oldest policy cannot exist. -/
theorem event_buffer_unbounded :
    ¬ ∃ bound : Nat, ∀ events : List VirtioInputEvent,
        ((events.foldl Input.send_event Input.new_keyboard).event_buffer).length
          ≤ bound := by
  rintro ⟨bound, h⟩
  have h2 := h (List.replicate (bound + 1) { event_type := 0, code := 0, value := 0 })
  rw [send_event_foldl_buffer] at h2
  simp [Input.new_keyboard, Input.new] at h2

/-- C3 (amended): `send_event` appends the event to the buffer
unconditionally; the buffer is unbounded, nothing is ever dropped and no
drop counter exists — after any sequence of `send_event` calls the buffer
holds exactly the prior contents followed by all pushed events, in push
order. -/
theorem send_event_appends_unboundedly (s : Input) (events : List VirtioInputEvent) :
    (events.foldl Input.send_event s).event_buffer = s.event_buffer ++ events :=
  send_event_foldl_buffer s events

/-- C4: evaluation at the failing input. The keyboard half of the claim
holds (`size = 128`, all payload bytes `0xff`), but for the mouse the
`BTN_LEFT`/`BTN_RIGHT`/`BTN_MIDDLE` bits (bit indices 0x110–0x112) land in
byte 34 of the bitmap — outside the announced 24-byte payload, whose bytes
are all zero. -/
theorem ev_bits_key_mouse_buttons_outside_payload :
    ((Input.new_keyboard).get_config VIRTIO_INPUT_CFG_EV_BITS EV_KEY).size = 128 ∧
    ((Input.new_keyboard).get_config VIRTIO_INPUT_CFG_EV_BITS EV_KEY).payload =
      List.replicate 128 0xff ∧
    ((Input.new_mouse).get_config VIRTIO_INPUT_CFG_EV_BITS EV_KEY).size = 24 ∧
    ((Input.new_mouse).get_config VIRTIO_INPUT_CFG_EV_BITS EV_KEY).payload.take 24 =
      List.replicate 24 0 ∧
    ((Input.new_mouse).get_config VIRTIO_INPUT_CFG_EV_BITS EV_KEY).payload.getD
      (BTN_LEFT / 8) 0 = 7 := by
  decide

/-- C5: `read_config` never errors or panics. The serialized record is 136
bytes; an offset at or past it writes nothing, and otherwise exactly
`min(len, 136 - offset)` bytes of the record starting at `offset` are
copied to the front of the output buffer, the remaining output bytes
unchanged. The `data.length < 2 ^ 63` bound is Rust's slice-size
guarantee (`len ≤ isize::MAX`), under which the `checked_add` never
overflows. -/
theorem read_config_total_and_clips (s : Input) (offset : Nat) (data : List Nat)
    (hwf : s.config.wf) (hlen : data.length < 2 ^ 63) :
    ∃ out, s.read_config offset data = some out ∧
      out.length = data.length ∧
      (136 ≤ offset → out = data) ∧
      (offset < 136 →
        out = ((serializeConfig s.config).drop offset).take
            (min data.length (136 - offset)) ++
          data.drop (min data.length (136 - offset))) := by
  have hcs : (serializeConfig s.config).length = 136 := serializeConfig_length _ hwf
  unfold Input.read_config
  by_cases hoff : 136 ≤ offset
  · rw [if_pos (show (serializeConfig s.config).length ≤ offset by omega)]
    exact ⟨data, rfl, rfl, fun _ => rfl, fun hlt => by omega⟩
  · rw [if_neg (show ¬ (serializeConfig s.config).length ≤ offset by omega)]
    have h64 : offset + data.length < 2 ^ 64 := by
      have e1 : (2 : Nat) ^ 63 = 9223372036854775808 := by norm_num
      have e2 : (2 : Nat) ^ 64 = 18446744073709551616 := by norm_num
      omega
    rw [if_pos h64]
    have hmink : min (offset + data.length) (serializeConfig s.config).length =
        offset + min data.length (136 - offset) := by
      omega
    rw [hmink, ← List.take_drop]
    have hsl : (((serializeConfig s.config).drop offset).take
        (min data.length (136 - offset))).length = min data.length (136 - offset) := by
      rw [List.length_take, List.length_drop]
      omega
    unfold writeAll
    rw [if_pos (by rw [hsl]; omega)]
    refine ⟨_, rfl, ?_, ?_, ?_⟩
    · rw [List.length_append, hsl, List.length_drop]
      omega
    · intro h'
      omega
    · intro _
      rw [hsl]

/-- C5 witness: a concrete in-range read near the end of the record. -/
theorem read_config_total_and_clips_witness :
    (Input.new_keyboard).config.wf ∧ (List.replicate 10 (5 : Nat)).length < 2 ^ 63 ∧
    ∃ out, (Input.new_keyboard).read_config 130 (List.replicate 10 5) = some out ∧
      out.length = (List.replicate 10 (5 : Nat)).length ∧
      (136 ≤ 130 → out = List.replicate 10 5) ∧
      (130 < 136 →
        out = ((serializeConfig (Input.new_keyboard).config).drop 130).take
            (min (List.replicate 10 (5 : Nat)).length (136 - 130)) ++
          (List.replicate 10 (5 : Nat)).drop
            (min (List.replicate 10 (5 : Nat)).length (136 - 130))) :=
  ⟨⟨rfl, rfl⟩, by decide,
    read_config_total_and_clips Input.new_keyboard 130 (List.replicate 10 5)
      ⟨rfl, rfl⟩ (by decide)⟩

/-- C6: `write_config` replaces the cached record exactly when the write is
at offset 0 with at least 2 bytes (byte 0 as select, byte 1 as subsel);
every other write — nonzero offset, offset past the config length, or fewer
than 2 bytes — leaves the cached record unchanged, and no write fails. -/
theorem write_config_select_writes_only (s : Input) (offset : Nat) (data : List Nat) :
    (s.write_config offset data).config =
      if offset = 0 ∧ 2 ≤ data.length then
        s.get_config (data.getD 0 0) (data.getD 1 0)
      else s.config := by
  unfold Input.write_config
  by_cases h1 : 136 ≤ offset
  · rw [if_pos h1, if_neg]
    rintro ⟨h0, -⟩
    omega
  · rw [if_neg h1]
    by_cases h2 : offset = 0 ∧ 2 ≤ data.length
    · rw [if_pos h2, if_pos h2]
    · rw [if_neg h2, if_neg h2]

/-- C7: decoding the fixed 8-byte encoding of any representable input event
(16-bit type and code, 32-bit value) yields the event back. -/
theorem decode_encode_roundtrip (e : VirtioInputEvent)
    (ht : e.event_type < 2 ^ 16) (hc : e.code < 2 ^ 16) (hv : e.value < 2 ^ 32) :
    decodeEvent (encodeEvent e) = some e := by
  obtain ⟨t, c, v⟩ := e
  simp only at ht hc hv
  have e16 : (2 : Nat) ^ 16 = 65536 := by norm_num
  have e32 : (2 : Nat) ^ 32 = 4294967296 := by norm_num
  simp only [encodeEvent, decodeEvent, le16, le32, List.cons_append, List.nil_append,
    Option.some.injEq, VirtioInputEvent.mk.injEq]
  refine ⟨?_, ?_, ?_⟩ <;> omega

/-- C7 witness at `event_type = EV_KEY`, `code = 0`, `value = 0xFFFFFFFF`. -/
theorem decode_encode_roundtrip_witness :
    EV_KEY < 2 ^ 16 ∧ (0 : Nat) < 2 ^ 16 ∧ (0xFFFFFFFF : Nat) < 2 ^ 32 ∧
    decodeEvent (encodeEvent { event_type := EV_KEY, code := 0, value := 0xFFFFFFFF }) =
      some { event_type := EV_KEY, code := 0, value := 0xFFFFFFFF } :=
  ⟨by decide, by decide, by decide,
    decode_encode_roundtrip { event_type := EV_KEY, code := 0, value := 0xFFFFFFFF }
      (by decide) (by decide) (by decide)⟩

/-- C8: any `(select, subsel)` pair outside the defined dispatch-table
entries — `PROP_BITS`, `ABS_INFO`, unknown selectors, or `EV_BITS` with a
subsel the device class does not support — yields a record with
`size = 0`. -/
theorem get_config_undefined_size_zero (s : Input) (select subsel : Nat)
    (h : ¬ definedEntry s.device_type select subsel) :
    (s.get_config select subsel).size = 0 := by
  unfold definedEntry at h
  push_neg at h
  obtain ⟨h1, h2, h3, h4⟩ := h
  unfold Input.get_config
  rw [if_neg h1, if_neg h2, if_neg h3]
  by_cases h5 : select = VIRTIO_INPUT_CFG_EV_BITS
  · obtain ⟨hs0, hsK, hsRep, hsRel⟩ := h4 h5
    rw [if_pos h5, ev_bits_inner_eq_base _ _ _ hsK hsRep hsRel]
    simp [baseConfig, VirtioInputConfig.default]
  · rw [if_neg h5]

/-- C8 witness: `PROP_BITS` on a keyboard is undefined and yields size 0. -/
theorem get_config_undefined_size_zero_witness :
    ¬ definedEntry (Input.new_keyboard).device_type VIRTIO_INPUT_CFG_PROP_BITS 0 ∧
    ((Input.new_keyboard).get_config VIRTIO_INPUT_CFG_PROP_BITS 0).size = 0 :=
  ⟨by decide, get_config_undefined_size_zero Input.new_keyboard _ _ (by decide)⟩

/-- C9: end-to-end — after a config write of `[ID_DEVIDS, 0]` at offset 0,
the cached record has size 8, and reading it back yields the serialized
device ids {bustype 6 (VIRTUAL), vendor 0x1af4, product 1 for the keyboard
and 2 for the mouse, version 1} in little-endian bytes. -/
theorem devids_end_to_end :
    ((Input.new_keyboard).write_config 0 [VIRTIO_INPUT_CFG_ID_DEVIDS, 0]).config.size = 8 ∧
    ((Input.new_keyboard).write_config 0 [VIRTIO_INPUT_CFG_ID_DEVIDS, 0]).read_config 0
        (List.replicate 16 0) =
      some [3, 0, 8, 0, 0, 0, 0, 0, 6, 0, 0xf4, 0x1a, 1, 0, 1, 0] ∧
    ((Input.new_mouse).write_config 0 [VIRTIO_INPUT_CFG_ID_DEVIDS, 0]).config.size = 8 ∧
    ((Input.new_mouse).write_config 0 [VIRTIO_INPUT_CFG_ID_DEVIDS, 0]).read_config 0
        (List.replicate 16 0) =
      some [3, 0, 8, 0, 0, 0, 0, 0, 6, 0, 0xf4, 0x1a, 2, 0, 1, 0] := by
  decide

theorem get_config_id_name_eq (s : Input) (subsel : Nat) :
    s.get_config VIRTIO_INPUT_CFG_ID_NAME subsel =
      { baseConfig VIRTIO_INPUT_CFG_ID_NAME subsel with
        size := min s.name.length 128
        payload := s.name.take (min s.name.length 128) ++
          List.replicate (128 - min s.name.length 128) 0 } := by
  unfold Input.get_config
  rw [if_pos rfl]

theorem get_config_id_serial_eq (s : Input) (subsel : Nat) :
    s.get_config VIRTIO_INPUT_CFG_ID_SERIAL subsel =
      { baseConfig VIRTIO_INPUT_CFG_ID_SERIAL subsel with
        size := min s.serial.length 128
        payload := s.serial.take (min s.serial.length 128) ++
          List.replicate (128 - min s.serial.length 128) 0 } := by
  unfold Input.get_config
  rw [if_neg (by decide), if_pos rfl]

theorem id_payload_cases (l : List Nat) :
    (l.length ≤ 128 →
      min l.length 128 = l.length ∧
      (l.take (min l.length 128) ++
        List.replicate (128 - min l.length 128) 0).take l.length = l) ∧
    (128 < l.length →
      min l.length 128 = 128 ∧
      (l.take (min l.length 128) ++
        List.replicate (128 - min l.length 128) 0).take 128 = l.take 128) := by
  constructor
  · intro h
    have hm : min l.length 128 = l.length := by omega
    rw [hm, List.take_length]
    exact ⟨rfl, List.take_left l _⟩
  · intro h
    have hm : min l.length 128 = 128 := by omega
    rw [hm]
    exact ⟨rfl, List.take_left' (by rw [List.length_take]; omega)⟩

/-- C10: the `ID_NAME` (resp. `ID_SERIAL`) record holds the configured
string byte-for-byte with `size` equal to its length when the string is at
most 128 bytes, and its first 128 bytes with `size = 128` when longer. -/
theorem id_name_serial_truncation (s : Input) (subsel : Nat) :
    ((s.name.length ≤ 128 →
        (s.get_config VIRTIO_INPUT_CFG_ID_NAME subsel).size = s.name.length ∧
        (s.get_config VIRTIO_INPUT_CFG_ID_NAME subsel).payload.take s.name.length =
          s.name) ∧
      (128 < s.name.length →
        (s.get_config VIRTIO_INPUT_CFG_ID_NAME subsel).size = 128 ∧
        (s.get_config VIRTIO_INPUT_CFG_ID_NAME subsel).payload.take 128 =
          s.name.take 128)) ∧
    ((s.serial.length ≤ 128 →
        (s.get_config VIRTIO_INPUT_CFG_ID_SERIAL subsel).size = s.serial.length ∧
        (s.get_config VIRTIO_INPUT_CFG_ID_SERIAL subsel).payload.take s.serial.length =
          s.serial) ∧
      (128 < s.serial.length →
        (s.get_config VIRTIO_INPUT_CFG_ID_SERIAL subsel).size = 128 ∧
        (s.get_config VIRTIO_INPUT_CFG_ID_SERIAL subsel).payload.take 128 =
          s.serial.take 128)) := by
  rw [get_config_id_name_eq, get_config_id_serial_eq]
  exact ⟨id_payload_cases s.name, id_payload_cases s.serial⟩

/-- C10 witness: the keyboard's 15-byte name is returned whole. -/
theorem id_name_serial_truncation_witness :
    (Input.new_keyboard).name.length ≤ 128 ∧
    ((Input.new_keyboard).get_config VIRTIO_INPUT_CFG_ID_NAME 0).size =
      (Input.new_keyboard).name.length ∧
    ((Input.new_keyboard).get_config VIRTIO_INPUT_CFG_ID_NAME 0).payload.take
      (Input.new_keyboard).name.length = (Input.new_keyboard).name :=
  ⟨by decide,
    ((id_name_serial_truncation Input.new_keyboard 0).1.1 (by decide)).1,
    ((id_name_serial_truncation Input.new_keyboard 0).1.1 (by decide)).2⟩

end VirtioInput
